import Mathlib

/-!
Shallow embedding of drivers/spi/spi-tty-plain.c.

The driver bridges a TTY to an SPI link.  The central routine is
__spi_serial_tty_write: it serializes one SPI transaction under a
per-instance mutex, allocating an inbound (rx) buffer, a message
descriptor and a transfer record, performing one synchronous exchange,
and (for non-discarded transactions) pushing the non-null inbound bytes
from index 1 onward to the TTY layer.

External effects (mutex operations, allocations, frees, the spi_sync
exchange, tty_insert_flip_char, tty_flip_buffer_push, the dev_dbg log)
are recorded as an event trace; the kernel services that can fail
(kzalloc, kmalloc, spi_sync, devm_request_threaded_irq,
tty_register_device) and the contents the transport deposits in the rx
buffer are supplied by an environment/oracle record, so every branch of
the C code is reachable in the model.
-/

namespace SpiTty

/-- ASCII 0x05, the enquiry marker byte (SPI_TTY_ENQUIRY in the source). -/
def SPI_TTY_ENQUIRY : Nat := 0x5

/-- Fixed message length cap (SPI_TTY_MSG_LEN in the source). -/
def SPI_TTY_MSG_LEN : Nat := 64

/-- Poll/read-path clock (SPI_TTY_FREQ_HZ_RX in the source). -/
def SPI_TTY_FREQ_HZ_RX : Nat := 9600

/-- Write-path clock (SPI_TTY_FREQ_HZ_TX in the source). -/
def SPI_TTY_FREQ_HZ_TX : Nat := 115200

/-- Per-byte inter-transfer delay in microseconds (SPI_TTY_DELAY_US). -/
def SPI_TTY_DELAY_US : Nat := 25

/-- Capacity of the driver: one minor (SPI_SERIAL_TTY_MINORS). -/
def SPI_SERIAL_TTY_MINORS : Nat := 1

/-- Linux errno value for out-of-memory; the driver returns -ENOMEM. -/
def ENOMEM : Int := 12

/-- Linux errno value for device-busy; the driver returns -EBUSY from install. -/
def EBUSY : Int := 16

/-- The fields of struct spi_transfer that the driver fills in
(t->len, t->tx_buf, t->delay_usecs, t->speed_hz); rx_buf is the freshly
allocated inbound buffer, tracked separately in the model. -/
structure SpiTransfer where
  len : Nat
  tx_buf : List Nat
  delay_usecs : Nat
  speed_hz : Nat
deriving DecidableEq

/-- Observable events emitted by __spi_serial_tty_write, in program order. -/
inductive Ev where
  /-- mutex_lock(&stty->mtx) -/
  | lock
  /-- mutex_unlock(&stty->mtx) -/
  | unlock
  /-- kzalloc of the rx buffer, recording the requested length -/
  | allocRx (len : Nat)
  /-- kmalloc of the spi_message descriptor -/
  | allocMsg
  /-- kzalloc of the spi_transfer record -/
  | allocXfer
  /-- kfree(rx_buf) -/
  | freeRx
  /-- kfree(m) -/
  | freeMsg
  /-- kfree(t) -/
  | freeXfer
  /-- spi_sync(stty->spi, m), carrying the single transfer of the message -/
  | spiSync (t : SpiTransfer)
  /-- dev_dbg diagnostic on a nonzero spi_sync return -/
  | logErr (ret : Int)
  /-- tty_insert_flip_char(tty, c, TTY_NORMAL) -/
  | insert (c : Nat)
  /-- tty_flip_buffer_push(tty) -/
  | flushPush
deriving DecidableEq

/-- Oracle for one call of __spi_serial_tty_write: whether each of the
three allocations succeeds, what spi_sync returns, which bytes the
transport deposits in the rx buffer (bytes beyond the deposited list
stay at the kzalloc zero fill), and whether ttys[0] is non-NULL. -/
structure WriteEnv where
  allocRxOk : Bool
  allocMsgOk : Bool
  allocXferOk : Bool
  syncRet : Int
  rx : List Nat
  ttyAttached : Bool

/-- Contents of the rx buffer after the exchange: kzalloc zero-filled
`len` bytes, overwritten at each index the transport deposited. -/
def rx_after (rx : List Nat) (len : Nat) : List Nat :=
  (List.range len).map fun i => rx.getD i 0

/-- The delivery loop of __spi_serial_tty_write, lines 171-175:
`for (i = 1; i < len; i++) { if (rx_buf[i] == 0) continue; insert(rx_buf[i]); }`.
Returns the characters inserted, in order, starting from index `i`. -/
def flip_loop (rxb : List Nat) (len i : Nat) : List Nat :=
  if i < len then
    if rxb.getD i 0 = 0 then flip_loop rxb len (i + 1)
    else rxb.getD i 0 :: flip_loop rxb len (i + 1)
  else []
termination_by len - i

/-- __spi_serial_tty_write (lines 107-187).  Returns the emitted event
trace and the C return value: 0 on a NULL/empty payload, -ENOMEM when an
allocation fails, and `len` (the transaction length) otherwise.  The
branch structure mirrors the source: the early return precedes the
mutex, each allocation-failure branch unlocks and returns -ENOMEM
without freeing, and the success path logs (poll path only, on a nonzero
spi_sync result), delivers the non-null rx bytes from index 1 when
discard_rx is unset and ttys[0] is attached, frees t, m, rx_buf, and
unlocks. -/
def __spi_serial_tty_write (env : WriteEnv) (buf : Option (List Nat))
    (count : Nat) (discard_rx : Bool) : List Ev × Int :=
  match buf with
  | none => ([], 0)
  | some b =>
    if count = 0 then ([], 0)
    else
      let len := if discard_rx then min SPI_TTY_MSG_LEN count else count
      if env.allocRxOk = false then
        ([Ev.lock, Ev.unlock], -ENOMEM)
      else if env.allocMsgOk = false then
        ([Ev.lock, Ev.allocRx len, Ev.unlock], -ENOMEM)
      else if env.allocXferOk = false then
        ([Ev.lock, Ev.allocRx len, Ev.allocMsg, Ev.unlock], -ENOMEM)
      else
        let t : SpiTransfer :=
          { len := len
            tx_buf := b.take len
            delay_usecs := SPI_TTY_DELAY_US
            speed_hz := if discard_rx then SPI_TTY_FREQ_HZ_TX else SPI_TTY_FREQ_HZ_RX }
        let rxb := rx_after env.rx len
        let logEvs : List Ev :=
          if discard_rx then []
          else if env.syncRet ≠ 0 then [Ev.logErr env.syncRet] else []
        let deliver : List Ev :=
          if discard_rx then []
          else if env.ttyAttached = false then []
          else (flip_loop rxb len 1).map Ev.insert ++ [Ev.flushPush]
        ([Ev.lock, Ev.allocRx len, Ev.allocMsg, Ev.allocXfer, Ev.spiSync t]
           ++ logEvs ++ deliver
           ++ [Ev.freeXfer, Ev.freeMsg, Ev.freeRx, Ev.unlock],
         Int.ofNat len)

/-- Per-instance driver state relevant to the model: the pre-built
enquiry buffer (char enq_buf[SPI_TTY_MSG_LEN + 1] of struct spi_tty). -/
structure SpiTtyState where
  enq_buf : List Nat
deriving DecidableEq

/-- The enquiry buffer as probe builds it (lines 279-280): memset fills
all sizeof(enq_buf) = SPI_TTY_MSG_LEN + 1 bytes with SPI_TTY_ENQUIRY,
then the last byte is overwritten with 0x00. -/
def mk_enq_buf : List Nat :=
  (List.replicate (SPI_TTY_MSG_LEN + 1) SPI_TTY_ENQUIRY).set (SPI_TTY_MSG_LEN + 1 - 1) 0x00

/-- Observable events of spi_tty_probe. -/
inductive PEv where
  /-- kzalloc of struct spi_tty -/
  | allocStty
  /-- kfree(stty) on the error path -/
  | freeStty
  /-- devm_request_threaded_irq succeeded -/
  | irqRequest
  /-- tty_register_device succeeded -/
  | ttyRegister
  /-- dev_count++ under the spinlock -/
  | countInc
deriving DecidableEq

/-- Oracle for one probe call: whether the kzalloc succeeds, and the
results of devm_request_threaded_irq and tty_register_device (0 for
success, a negative errno for failure). -/
structure ProbeEnv where
  allocSttyOk : Bool
  irqRet : Int
  regRet : Int

/-- spi_tty_probe (lines 259-321).  Takes the current dev_count and
returns the probe event trace, the outcome (the created instance state
or the returned error), and the resulting dev_count.  The capacity check
`dev_count >= SPI_SERIAL_TTY_MINORS` returns -ENOMEM first; kzalloc
failure returns -ENOMEM; irq-request or device-registration failure
frees stty and returns that error; only the success path increments
dev_count. -/
def spi_tty_probe (dev_count : Nat) (env : ProbeEnv) :
    List PEv × Except Int SpiTtyState × Nat :=
  if SPI_SERIAL_TTY_MINORS ≤ dev_count then
    ([], Except.error (-ENOMEM), dev_count)
  else if env.allocSttyOk = false then
    ([], Except.error (-ENOMEM), dev_count)
  else
    let stty : SpiTtyState := { enq_buf := mk_enq_buf }
    if env.irqRet ≠ 0 then
      ([PEv.allocStty, PEv.freeStty], Except.error env.irqRet, dev_count)
    else if env.regRet ≠ 0 then
      ([PEv.allocStty, PEv.irqRequest, PEv.freeStty], Except.error env.regRet, dev_count)
    else
      ([PEv.allocStty, PEv.irqRequest, PEv.ttyRegister, PEv.countInc],
       Except.ok stty, dev_count + 1)

/-- spi_tty_irq_handler (lines 251-256): on interrupt, call
__spi_serial_tty_write(stty, stty->enq_buf, sizeof(stty->enq_buf), 0);
sizeof(stty->enq_buf) is SPI_TTY_MSG_LEN + 1 and discard_rx is 0.
The handler ignores the write result; the model returns it so the
transaction can be inspected. -/
def spi_tty_irq_handler (stty : SpiTtyState) (env : WriteEnv) : List Ev × Int :=
  __spi_serial_tty_write env (some stty.enq_buf) (SPI_TTY_MSG_LEN + 1) false

/-- The statements of spi_serial_tty_lookup (lines 200-206), in source
order: `if (idx == 0);` (the stray semicolon makes the branch body the
empty statement), `return ttys[0];`, `return NULL;`. -/
inductive LookupStep where
  | ifIdxZeroEmptyBody
  | retTtys0
  | retNull
deriving DecidableEq

/-- The body of spi_serial_tty_lookup as the source writes it. -/
def lookup_body : List LookupStep :=
  [LookupStep.ifIdxZeroEmptyBody, LookupStep.retTtys0, LookupStep.retNull]

/-- Sequential execution of the lookup statements: an `if` with an empty
body evaluates its condition and continues either way; a return
statement stops with its value.  `none` means control fell off the end. -/
def runLookup (ttys0 : Option Nat) (idx : Int) :
    List LookupStep → Option (Option Nat)
  | [] => none
  | LookupStep.ifIdxZeroEmptyBody :: rest =>
      if idx = 0 then runLookup ttys0 idx rest else runLookup ttys0 idx rest
  | LookupStep.retTtys0 :: _ => some ttys0
  | LookupStep.retNull :: _ => some none

/-- spi_serial_tty_lookup: run the statement list on the singleton slot
ttys[0] and the requested minor index. -/
def spi_serial_tty_lookup (ttys0 : Option Nat) (idx : Int) : Option Nat :=
  (runLookup ttys0 idx lookup_body).getD none

/-- The characters pushed to the TTY layer by a trace, in order. -/
def inserted (evs : List Ev) : List Nat :=
  evs.filterMap fun e =>
    match e with
    | Ev.insert c => some c
    | _ => none

/-- The lengths requested from kzalloc for rx buffers in a trace. -/
def rxAllocs (evs : List Ev) : List Nat :=
  evs.filterMap fun e =>
    match e with
    | Ev.allocRx n => some n
    | _ => none

/-- The first transfer handed to spi_sync in a trace, if any. -/
def firstSync : List Ev → Option SpiTransfer
  | [] => none
  | Ev.spiSync t :: _ => some t
  | _ :: evs => firstSync evs

/-- Whether a trace performs any transport exchange. -/
def hasSync (evs : List Ev) : Bool :=
  evs.any fun e =>
    match e with
    | Ev.spiSync _ => true
    | _ => false

/-- The transaction length __spi_serial_tty_write chooses (line 124-127):
capped at SPI_TTY_MSG_LEN when discard_rx is set, the full count otherwise. -/
def wlen (d : Bool) (count : Nat) : Nat :=
  if d then min SPI_TTY_MSG_LEN count else count

/-- The transfer record __spi_serial_tty_write builds (lines 149-153). -/
def wxfer (b : List Nat) (count : Nat) (d : Bool) : SpiTransfer :=
  { len := wlen d count
    tx_buf := b.take (wlen d count)
    delay_usecs := SPI_TTY_DELAY_US
    speed_hz := if d then SPI_TTY_FREQ_HZ_TX else SPI_TTY_FREQ_HZ_RX }

/-- The diagnostic-log events of one write call (lines 159-164). -/
def wlog (env : WriteEnv) (d : Bool) : List Ev :=
  if d then []
  else if env.syncRet ≠ 0 then [Ev.logErr env.syncRet] else []

/-- The delivery events of one write call (lines 159-176). -/
def wdeliver (env : WriteEnv) (count : Nat) (d : Bool) : List Ev :=
  if d then []
  else if env.ttyAttached = false then []
  else (flip_loop (rx_after env.rx (wlen d count)) (wlen d count) 1).map Ev.insert
         ++ [Ev.flushPush]

theorem rx_after_length (rx : List Nat) (len : Nat) :
    (rx_after rx len).length = len := by
  simp [rx_after]

theorem write_none (env : WriteEnv) (count : Nat) (d : Bool) :
    __spi_serial_tty_write env none count d = ([], 0) := rfl

theorem write_zero (env : WriteEnv) (b : List Nat) (d : Bool) :
    __spi_serial_tty_write env (some b) 0 d = ([], 0) := by
  simp [__spi_serial_tty_write]

theorem write_rx_fail (env : WriteEnv) (b : List Nat) (count : Nat) (d : Bool)
    (hc : count ≠ 0) (h1 : env.allocRxOk = false) :
    __spi_serial_tty_write env (some b) count d = ([Ev.lock, Ev.unlock], -ENOMEM) := by
  simp [__spi_serial_tty_write, hc, h1]

theorem write_msg_fail (env : WriteEnv) (b : List Nat) (count : Nat) (d : Bool)
    (hc : count ≠ 0) (h1 : env.allocRxOk = true) (h2 : env.allocMsgOk = false) :
    __spi_serial_tty_write env (some b) count d =
      ([Ev.lock, Ev.allocRx (wlen d count), Ev.unlock], -ENOMEM) := by
  simp [__spi_serial_tty_write, hc, h1, h2, wlen]

theorem write_xfer_fail (env : WriteEnv) (b : List Nat) (count : Nat) (d : Bool)
    (hc : count ≠ 0) (h1 : env.allocRxOk = true) (h2 : env.allocMsgOk = true)
    (h3 : env.allocXferOk = false) :
    __spi_serial_tty_write env (some b) count d =
      ([Ev.lock, Ev.allocRx (wlen d count), Ev.allocMsg, Ev.unlock], -ENOMEM) := by
  simp [__spi_serial_tty_write, hc, h1, h2, h3, wlen]

theorem write_success (env : WriteEnv) (b : List Nat) (count : Nat) (d : Bool)
    (hc : count ≠ 0) (h1 : env.allocRxOk = true) (h2 : env.allocMsgOk = true)
    (h3 : env.allocXferOk = true) :
    __spi_serial_tty_write env (some b) count d =
      ([Ev.lock, Ev.allocRx (wlen d count), Ev.allocMsg, Ev.allocXfer,
        Ev.spiSync (wxfer b count d)]
         ++ wlog env d ++ wdeliver env count d
         ++ [Ev.freeXfer, Ev.freeMsg, Ev.freeRx, Ev.unlock],
       Int.ofNat (wlen d count)) := by
  simp [__spi_serial_tty_write, hc, h1, h2, h3, wlen, wxfer, wlog, wdeliver]

/-- The index-based delivery loop, started at index `i` on a buffer of
length `len`, inserts exactly the non-null bytes from position `i`
onward, in order. -/
theorem flip_loop_eq (rxb : List Nat) (i : Nat) :
    flip_loop rxb rxb.length i = (rxb.drop i).filter (fun c => decide (c ≠ 0)) := by
  generalize h : rxb.length - i = n
  induction n generalizing i with
  | zero =>
    unfold flip_loop
    have hge : ¬ i < rxb.length := by omega
    simp [hge, List.drop_eq_nil_of_le (by omega : rxb.length ≤ i)]
  | succ n ih =>
    have hlt : i < rxb.length := by omega
    unfold flip_loop
    rw [List.drop_eq_getElem_cons hlt, List.filter_cons]
    have hgd : rxb.getD i 0 = rxb[i] := List.getD_eq_getElem rxb 0 hlt
    by_cases hz : rxb[i] = 0
    · simp [hlt, hgd, hz, ih (i + 1) (by omega)]
    · simp [hlt, hgd, hz, ih (i + 1) (by omega)]

/-- Every event of the log segment is a logErr event. -/
theorem mem_wlog (env : WriteEnv) (d : Bool) (e : Ev) (he : e ∈ wlog env d) :
    ∃ r, e = Ev.logErr r := by
  unfold wlog at he
  split at he
  · simp at he
  · split at he
    · simp at he
      exact ⟨env.syncRet, he⟩
    · simp at he

/-- Every event of the delivery segment is an insert or the flush push. -/
theorem mem_wdeliver (env : WriteEnv) (count : Nat) (d : Bool) (e : Ev)
    (he : e ∈ wdeliver env count d) :
    (∃ c, e = Ev.insert c) ∨ e = Ev.flushPush := by
  unfold wdeliver at he
  split at he
  · simp at he
  · split at he
    · simp at he
    · rcases List.mem_append.1 he with hm | hm
      · rcases List.mem_map.1 hm with ⟨c, _, hc⟩
        exact Or.inl ⟨c, hc.symm⟩
      · simp at hm
        exact Or.inr hm

theorem lock_count_wlog (env : WriteEnv) (d : Bool) :
    (wlog env d).count Ev.lock = 0 :=
  List.count_eq_zero.mpr fun h => by
    obtain ⟨r, hr⟩ := mem_wlog env d _ h
    exact Ev.noConfusion hr

theorem unlock_count_wlog (env : WriteEnv) (d : Bool) :
    (wlog env d).count Ev.unlock = 0 :=
  List.count_eq_zero.mpr fun h => by
    obtain ⟨r, hr⟩ := mem_wlog env d _ h
    exact Ev.noConfusion hr

theorem lock_count_wdeliver (env : WriteEnv) (count : Nat) (d : Bool) :
    (wdeliver env count d).count Ev.lock = 0 :=
  List.count_eq_zero.mpr fun h => by
    rcases mem_wdeliver env count d _ h with ⟨c, hc⟩ | hfp
    · exact Ev.noConfusion hc
    · exact Ev.noConfusion hfp

theorem unlock_count_wdeliver (env : WriteEnv) (count : Nat) (d : Bool) :
    (wdeliver env count d).count Ev.unlock = 0 :=
  List.count_eq_zero.mpr fun h => by
    rcases mem_wdeliver env count d _ h with ⟨c, hc⟩ | hfp
    · exact Ev.noConfusion hc
    · exact Ev.noConfusion hfp

theorem rxAllocs_append (l1 l2 : List Ev) :
    rxAllocs (l1 ++ l2) = rxAllocs l1 ++ rxAllocs l2 := by
  simp [rxAllocs]

theorem rxAllocs_wlog (env : WriteEnv) (d : Bool) : rxAllocs (wlog env d) = [] :=
  List.eq_nil_iff_forall_not_mem.mpr fun n hn => by
    unfold rxAllocs at hn
    obtain ⟨e, he, hev⟩ := List.mem_filterMap.1 hn
    obtain ⟨r, hr⟩ := mem_wlog env d e he
    subst hr
    simp at hev

theorem rxAllocs_wdeliver (env : WriteEnv) (count : Nat) (d : Bool) :
    rxAllocs (wdeliver env count d) = [] :=
  List.eq_nil_iff_forall_not_mem.mpr fun n hn => by
    unfold rxAllocs at hn
    obtain ⟨e, he, hev⟩ := List.mem_filterMap.1 hn
    rcases mem_wdeliver env count d e he with ⟨c, hc⟩ | hfp
    · subst hc; simp at hev
    · subst hfp; simp at hev

theorem inserted_append (l1 l2 : List Ev) :
    inserted (l1 ++ l2) = inserted l1 ++ inserted l2 := by
  simp [inserted]

theorem inserted_wlog (env : WriteEnv) (d : Bool) : inserted (wlog env d) = [] :=
  List.eq_nil_iff_forall_not_mem.mpr fun n hn => by
    unfold inserted at hn
    obtain ⟨e, he, hev⟩ := List.mem_filterMap.1 hn
    obtain ⟨r, hr⟩ := mem_wlog env d e he
    subst hr
    simp at hev

theorem inserted_map_insert (l : List Nat) : inserted (l.map Ev.insert) = l := by
  induction l with
  | nil => rfl
  | cons c l ih =>
    simp only [List.map_cons, inserted, List.filterMap_cons] at ih ⊢
    rw [ih]

/- * * * Claim theorems * * * -/

/-- C7: a write with a NULL buffer or a zero count returns 0, emits no
events at all (so no mutex operation, no allocation, no transport
exchange), and leaves the device state untouched. -/
theorem C7_empty_payload_noop (env : WriteEnv) (buf : Option (List Nat))
    (count : Nat) (d : Bool) (h : buf = none ∨ count = 0) :
    __spi_serial_tty_write env buf count d = ([], 0) := by
  rcases h with h | h
  · subst h
    exact write_none env count d
  · subst h
    match buf with
    | none => exact write_none env 0 d
    | some b => exact write_zero env b d

theorem C7_witness :
    __spi_serial_tty_write ⟨true, true, true, 0, [], true⟩ none 5 true = ([], 0) :=
  C7_empty_payload_noop ⟨true, true, true, 0, [], true⟩ none 5 true (Or.inl rfl)

/-- C4: when all three allocations succeed, the write/transact path
returns the attempted byte count (the transaction length) for every
environment, in particular for every spi_sync result: a transport error
is never propagated to the caller. -/
theorem C4_transport_error_not_propagated (env : WriteEnv) (b : List Nat)
    (count : Nat) (d : Bool) (hc : count ≠ 0) (h1 : env.allocRxOk = true)
    (h2 : env.allocMsgOk = true) (h3 : env.allocXferOk = true) :
    (__spi_serial_tty_write env (some b) count d).2 = Int.ofNat (wlen d count) := by
  rw [write_success env b count d hc h1 h2 h3]

theorem C4_witness :
    (__spi_serial_tty_write ⟨true, true, true, -5, [], true⟩ (some [1, 2, 3]) 3 true).2 = 3 :=
  (C4_transport_error_not_propagated ⟨true, true, true, -5, [], true⟩ [1, 2, 3] 3 true
    (by decide) rfl rfl rfl).trans (by decide)

/-- C9: every transfer handed to spi_sync carries the fixed 25 µs
inter-transfer delay, and its clock is 115200 on the discard (write)
path and 9600 on the poll path. -/
theorem C9_fixed_transfer_params (env : WriteEnv) (buf : Option (List Nat))
    (count : Nat) (d : Bool) (t : SpiTransfer)
    (ht : Ev.spiSync t ∈ (__spi_serial_tty_write env buf count d).1) :
    t.delay_usecs = SPI_TTY_DELAY_US ∧
    t.speed_hz = if d then SPI_TTY_FREQ_HZ_TX else SPI_TTY_FREQ_HZ_RX := by
  match buf with
  | none =>
    rw [write_none] at ht
    simp at ht
  | some b =>
    by_cases hc : count = 0
    · subst hc
      rw [write_zero] at ht
      simp at ht
    · cases h1 : env.allocRxOk with
      | false =>
        rw [write_rx_fail env b count d hc h1] at ht
        simp at ht
      | true =>
        cases h2 : env.allocMsgOk with
        | false =>
          rw [write_msg_fail env b count d hc h1 h2] at ht
          simp at ht
        | true =>
          cases h3 : env.allocXferOk with
          | false =>
            rw [write_xfer_fail env b count d hc h1 h2 h3] at ht
            simp at ht
          | true =>
            rw [write_success env b count d hc h1 h2 h3] at ht
            have hx : t = wxfer b count d := by
              simp only [List.cons_append, List.nil_append, List.mem_cons,
                List.mem_append] at ht
              rcases ht with h | h | h | h | h | h
              · exact absurd h (by simp)
              · exact absurd h (by simp)
              · exact absurd h (by simp)
              · exact absurd h (by simp)
              · exact Ev.spiSync.inj h
              · rcases h with (h | h) | (h | h | h | h)
                · obtain ⟨r, hr⟩ := mem_wlog env d _ h
                  exact absurd hr (by simp)
                · rcases mem_wdeliver env count d _ h with ⟨c, hc'⟩ | hfp
                  · exact absurd hc' (by simp)
                  · exact absurd hfp (by simp)
                · exact absurd h (by simp)
                · exact absurd h (by simp)
                · exact absurd h (by simp)
                · exact absurd h (by simp)
            subst hx
            exact ⟨rfl, rfl⟩

theorem C9_witness :
    (wxfer [1] 1 true).delay_usecs = SPI_TTY_DELAY_US ∧
    (wxfer [1] 1 true).speed_hz =
      if true then SPI_TTY_FREQ_HZ_TX else SPI_TTY_FREQ_HZ_RX :=
  C9_fixed_transfer_params ⟨true, true, true, 0, [], true⟩ (some [1]) 1 true
    (wxfer [1] 1 true) (by decide)

/-- C5: in a successful non-discarded (poll) transaction with ttys[0]
attached, the characters pushed to the TTY are exactly the non-null
bytes of the inbound buffer from index 1 onward, in order: index 0 is
skipped and null bytes are dropped. -/
theorem C5_poll_delivery (env : WriteEnv) (b : List Nat) (count : Nat)
    (hc : count ≠ 0) (h1 : env.allocRxOk = true) (h2 : env.allocMsgOk = true)
    (h3 : env.allocXferOk = true) (htty : env.ttyAttached = true) :
    inserted (__spi_serial_tty_write env (some b) count false).1
      = ((rx_after env.rx count).drop 1).filter (fun c => decide (c ≠ 0)) := by
  rw [write_success env b count false hc h1 h2 h3]
  have hd : wdeliver env count false
      = (flip_loop (rx_after env.rx count) count 1).map Ev.insert ++ [Ev.flushPush] := by
    unfold wdeliver
    simp [htty, wlen]
  have hfl : flip_loop (rx_after env.rx count) count 1
      = ((rx_after env.rx count).drop 1).filter (fun c => decide (c ≠ 0)) := by
    have hlen : (rx_after env.rx count).length = count := rx_after_length env.rx count
    calc flip_loop (rx_after env.rx count) count 1
        = flip_loop (rx_after env.rx count) (rx_after env.rx count).length 1 := by rw [hlen]
      _ = ((rx_after env.rx count).drop 1).filter (fun c => decide (c ≠ 0)) :=
          flip_loop_eq (rx_after env.rx count) 1
  simp only [List.append_assoc]
  rw [inserted_append, inserted_append, inserted_append, hd, inserted_append,
    inserted_wlog, inserted_map_insert, hfl]
  simp [inserted]

theorem C5_witness :
    inserted (__spi_serial_tty_write ⟨true, true, true, 0, [0, 65, 0, 66, 0], true⟩
        (some [1, 1, 1, 1, 1]) 5 false).1 = [65, 66] :=
  (C5_poll_delivery ⟨true, true, true, 0, [0, 65, 0, 66, 0], true⟩ [1, 1, 1, 1, 1] 5
    (by decide) rfl rfl rfl rfl).trans (by decide)

/-- C6: the inbound buffer is allocated with length
min(SPI_TTY_MSG_LEN, count) on the discard path and with length count on
the poll path; consequently a discard write of a non-empty payload of at
most 64 bytes allocates at most 64 bytes and returns the payload
length. -/
theorem C6_rx_buffer_sizing (env : WriteEnv) (b : List Nat) (d : Bool) (hb : b ≠ []) :
    (env.allocRxOk = true →
      rxAllocs (__spi_serial_tty_write env (some b) b.length d).1
        = [if d then min SPI_TTY_MSG_LEN b.length else b.length]) ∧
    (env.allocRxOk = true → env.allocMsgOk = true → env.allocXferOk = true →
      d = true → b.length ≤ SPI_TTY_MSG_LEN →
      (∀ n ∈ rxAllocs (__spi_serial_tty_write env (some b) b.length d).1,
        n ≤ SPI_TTY_MSG_LEN) ∧
      (__spi_serial_tty_write env (some b) b.length d).2 = Int.ofNat b.length) := by
  have hc : b.length ≠ 0 := by simpa using hb
  have key : env.allocRxOk = true →
      rxAllocs (__spi_serial_tty_write env (some b) b.length d).1
        = [if d then min SPI_TTY_MSG_LEN b.length else b.length] := by
    intro h1
    cases h2 : env.allocMsgOk with
    | false =>
      rw [write_msg_fail env b b.length d hc h1 h2]
      simp [rxAllocs, wlen]
    | true =>
      cases h3 : env.allocXferOk with
      | false =>
        rw [write_xfer_fail env b b.length d hc h1 h2 h3]
        simp [rxAllocs, wlen]
      | true =>
        rw [write_success env b b.length d hc h1 h2 h3]
        simp only [List.append_assoc]
        rw [rxAllocs_append, rxAllocs_append, rxAllocs_append,
          rxAllocs_wlog, rxAllocs_wdeliver]
        simp [rxAllocs, wlen]
  refine ⟨key, ?_⟩
  intro h1 h2 h3 hd hle
  subst hd
  constructor
  · rw [key h1]
    intro n hn
    simp at hn
    subst hn
    exact Nat.min_le_left _ _
  · rw [write_success env b b.length true hc h1 h2 h3]
    simp [wlen, Nat.min_eq_right hle]

theorem C6_witness :
    rxAllocs (__spi_serial_tty_write ⟨true, true, true, 0, [], true⟩
        (some [7, 8, 9]) 3 true).1 = [3] ∧
    (__spi_serial_tty_write ⟨true, true, true, 0, [], true⟩
        (some [7, 8, 9]) 3 true).2 = 3 := by
  have h := C6_rx_buffer_sizing ⟨true, true, true, 0, [], true⟩ [7, 8, 9] true (by decide)
  exact ⟨(h.1 rfl).trans (by decide), ((h.2 rfl rfl rfl rfl (by decide)).2).trans (by decide)⟩

/-- C8: every call either emits no events at all (the pre-lock early
return) or its trace is exactly one mutex acquisition, then a middle
segment containing no mutex operation, then one release as the very last
action before return.  In particular the lock is released exactly once
on every exit path, and every event of the call — the transport exchange
included — happens strictly between the acquisition and the release,
so at most one transaction per instance is in flight. -/
theorem C8_mutex_discipline (env : WriteEnv) (buf : Option (List Nat))
    (count : Nat) (d : Bool) :
    (__spi_serial_tty_write env buf count d).1 = [] ∨
    ∃ mid, (__spi_serial_tty_write env buf count d).1
        = Ev.lock :: (mid ++ [Ev.unlock]) ∧
      mid.count Ev.lock = 0 ∧ mid.count Ev.unlock = 0 := by
  match buf with
  | none => exact Or.inl (by rw [write_none])
  | some b =>
    by_cases hc : count = 0
    · subst hc
      exact Or.inl (by rw [write_zero])
    · right
      cases h1 : env.allocRxOk with
      | false =>
        exact ⟨[], by rw [write_rx_fail env b count d hc h1]; exact ⟨rfl, rfl, rfl⟩⟩
      | true =>
        cases h2 : env.allocMsgOk with
        | false =>
          refine ⟨[Ev.allocRx (wlen d count)], ?_, ?_, ?_⟩
          · rw [write_msg_fail env b count d hc h1 h2]
            rfl
          · simp
          · simp
        | true =>
          cases h3 : env.allocXferOk with
          | false =>
            refine ⟨[Ev.allocRx (wlen d count), Ev.allocMsg], ?_, ?_, ?_⟩
            · rw [write_xfer_fail env b count d hc h1 h2 h3]
              rfl
            · simp
            · simp
          | true =>
            refine ⟨[Ev.allocRx (wlen d count), Ev.allocMsg, Ev.allocXfer,
              Ev.spiSync (wxfer b count d)] ++ wlog env d ++ wdeliver env count d
                ++ [Ev.freeXfer, Ev.freeMsg, Ev.freeRx], ?_, ?_, ?_⟩
            · rw [write_success env b count d hc h1 h2 h3]
              simp
            · simp [List.count_append, lock_count_wlog, lock_count_wdeliver]
            · simp [List.count_append, unlock_count_wlog, unlock_count_wdeliver]

/-- C10: the lookup operation returns the singleton slot ttys[0] for
every minor index, not only index 0; because the `if` in the source ends
in a stray semicolon, `return ttys[0]` executes unconditionally and the
`return NULL` statement is never reached, so lookup never distinguishes
minor indices. -/
theorem C10_lookup_ignores_index (ttys0 : Option Nat) (idx : Int) :
    spi_serial_tty_lookup ttys0 idx = ttys0 ∧
    spi_serial_tty_lookup ttys0 idx = spi_serial_tty_lookup ttys0 0 := by
  constructor <;>
    simp [spi_serial_tty_lookup, lookup_body, runLookup]

/-- A successfully probed instance carries the enquiry buffer built at
lines 279-280. -/
theorem probe_ok_enq_buf (dc : Nat) (env : ProbeEnv) (stty : SpiTtyState)
    (h : (spi_tty_probe dc env).2.1 = Except.ok stty) :
    stty.enq_buf = mk_enq_buf := by
  unfold spi_tty_probe at h
  split at h
  · simp at h
  · split at h
    · simp at h
    · split at h
      · simp at h
      · split at h
        · simp at h
        · simp at h
          rw [← h]

/-- C1 counterexample: on a freshly probed instance, the transaction the
interrupt handler hands to the transport has length 65, not 64, and its
outbound frame is not the 64-byte sequence of 63 enquiry bytes plus a
terminator. -/
theorem C1_counterexample :
    (spi_tty_probe 0 ⟨true, 0, 0⟩).2.1 = Except.ok ⟨mk_enq_buf⟩ ∧
    (firstSync (spi_tty_irq_handler ⟨mk_enq_buf⟩ ⟨true, true, true, 0, [], true⟩).1).map
        SpiTransfer.len = some 65 ∧
    (65 : Nat) ≠ 64 ∧
    (firstSync (spi_tty_irq_handler ⟨mk_enq_buf⟩ ⟨true, true, true, 0, [], true⟩).1).map
        SpiTransfer.tx_buf
      ≠ some (List.replicate 63 SPI_TTY_ENQUIRY ++ [0x00]) :=
  ⟨rfl, by decide, by decide, by decide⟩

/-- C1 amended: for every interrupt-triggered enquiry poll on a probed
instance whose allocations succeed, the frame handed to the transport is
exactly the 65-byte sequence of 64 bytes of 0x05 followed by a single
0x00 terminator, and the transaction length passed for the enquiry
buffer equals 65 (sizeof of the enquiry array, SPI_TTY_MSG_LEN + 1). -/
theorem C1_enquiry_frame (dc : Nat) (penv : ProbeEnv) (stty : SpiTtyState)
    (env : WriteEnv) (hp : (spi_tty_probe dc penv).2.1 = Except.ok stty)
    (h1 : env.allocRxOk = true) (h2 : env.allocMsgOk = true)
    (h3 : env.allocXferOk = true) :
    ∃ t : SpiTransfer,
      firstSync (spi_tty_irq_handler stty env).1 = some t ∧
      t.len = SPI_TTY_MSG_LEN + 1 ∧
      t.tx_buf = List.replicate SPI_TTY_MSG_LEN SPI_TTY_ENQUIRY ++ [0x00] := by
  have hbuf := probe_ok_enq_buf dc penv stty hp
  unfold spi_tty_irq_handler
  rw [hbuf,
    write_success env mk_enq_buf (SPI_TTY_MSG_LEN + 1) false (by decide) h1 h2 h3]
  refine ⟨wxfer mk_enq_buf (SPI_TTY_MSG_LEN + 1) false, ?_, ?_, ?_⟩
  · rfl
  · rfl
  · decide

theorem C1_witness :
    ∃ t : SpiTransfer,
      firstSync
          (spi_tty_irq_handler ⟨mk_enq_buf⟩ ⟨true, true, true, 0, [], true⟩).1
        = some t ∧
      t.len = SPI_TTY_MSG_LEN + 1 ∧
      t.tx_buf = List.replicate SPI_TTY_MSG_LEN SPI_TTY_ENQUIRY ++ [0x00] :=
  C1_enquiry_frame 0 ⟨true, 0, 0⟩ ⟨mk_enq_buf⟩ ⟨true, true, true, 0, [], true⟩
    rfl rfl rfl rfl

/-- C2: at the failing input — a 3-byte discard write in which the
rx-buffer allocation succeeds and the message-descriptor allocation
fails — the call does return -ENOMEM and performs no transport exchange,
but the rx buffer allocated earlier in the same call is never freed
before return: there is an allocRx event and no freeRx event. -/
theorem C2_alloc_failure_leak :
    (__spi_serial_tty_write ⟨true, false, true, 0, [], true⟩
        (some [1, 2, 3]) 3 true).2 = -ENOMEM ∧
    hasSync (__spi_serial_tty_write ⟨true, false, true, 0, [], true⟩
        (some [1, 2, 3]) 3 true).1 = false ∧
    Ev.allocRx 3 ∈ (__spi_serial_tty_write ⟨true, false, true, 0, [], true⟩
        (some [1, 2, 3]) 3 true).1 ∧
    Ev.freeRx ∉ (__spi_serial_tty_write ⟨true, false, true, 0, [], true⟩
        (some [1, 2, 3]) 3 true).1 := by
  decide

/-- C3 counterexample: probing while dev_count already equals the
capacity of 1 fails with -ENOMEM, which is not the Busy error code. -/
theorem C3_counterexample :
    spi_tty_probe 1 ⟨true, 0, 0⟩ = ([], Except.error (-ENOMEM), 1) ∧
    -ENOMEM ≠ -EBUSY :=
  ⟨rfl, by decide⟩

/-- C3 amended: probing while the live instance count is at or above the
capacity of 1 fails with the OutOfMemory error -ENOMEM (not a Busy-class
error), emits no lifecycle events, and leaves dev_count and all other
device state unchanged. -/
theorem C3_probe_at_capacity (dc : Nat) (env : ProbeEnv)
    (h : SPI_SERIAL_TTY_MINORS ≤ dc) :
    spi_tty_probe dc env = ([], Except.error (-ENOMEM), dc) := by
  unfold spi_tty_probe
  rw [if_pos h]

theorem C3_witness :
    spi_tty_probe 1 ⟨false, -3, -7⟩ = ([], Except.error (-ENOMEM), 1) :=
  C3_probe_at_capacity 1 ⟨false, -3, -7⟩ (by decide)

end SpiTty
